import Mathlib

/-!
Shallow embedding of `src/tundialer-native/tundialer.c` (the `Connect`
N-API callback) and proofs about its failure semantics, resource
handling and control flow.

Strings are modelled as `List Char`; the claims only involve ASCII
arguments, for which one character is one UTF-8 byte, so the byte
truncation performed by `napi_get_value_string_utf8` is `List.take`.
-/

namespace Tundialer

/-- `IFNAMSIZ` on Linux: size of the `iface` buffer at tundialer.c:29. -/
def IFNAMSIZ : Nat := 16

/-- `INET_ADDRSTRLEN`: size of the `ip` buffer at tundialer.c:38. -/
def INET_ADDRSTRLEN : Nat := 16

/-- The glibc `inet_pton4` loop (called via `inet_pton(AF_INET, ...)` at
tundialer.c:73), translated statement by statement.  Accumulator fields:
`done` = completed octets (the bytes behind `tp`), `cur` = `*tp`,
`sawDigit` = `saw_digit`, `octets` = `octets`.  Returns the four octets
on success (`return 1` in C), `none` on failure (`return 0`). -/
def inet_pton4_go : List Char → List Nat → Nat → Bool → Nat → Option (List Nat)
  | [], done, cur, _sawDigit, octets =>
      if octets < 4 then none else some (done ++ [cur])
  | ch :: rest, done, cur, sawDigit, octets =>
      if ch.isDigit then
        let new := cur * 10 + (ch.toNat - 48)
        if sawDigit && decide (cur = 0) then none
        else if new > 255 then none
        else if sawDigit then inet_pton4_go rest done new sawDigit octets
        else if octets + 1 > 4 then none
        else inet_pton4_go rest done new true (octets + 1)
      else if ch = '.' && sawDigit then
        if octets = 4 then none
        else inet_pton4_go rest (done ++ [cur]) 0 false octets
      else none

/-- `inet_pton(AF_INET, src, dst)`: `some [a,b,c,d]` iff the C call
returns 1 and writes those octets. -/
def inet_pton4 (src : List Char) : Option (List Nat) :=
  inet_pton4_go src [] 0 false 0

/-- One error-throw site of `Connect`, identified by which `napi_throw_error`
call fires.  Names follow the spec's taxonomy where it has one:
`InvalidArgument` is the "Invalid iface argument" throw (tundialer.c:33). -/
inductive ErrKind
  | CbInfoFailed        -- tundialer.c:19
  | UsageError          -- tundialer.c:24
  | InvalidArgument     -- tundialer.c:33
  | InvalidIpArgument   -- tundialer.c:42
  | InvalidPortArgument -- tundialer.c:50
  | SocketCreateFailed  -- tundialer.c:56
  | InterfaceBindFailed -- tundialer.c:62
  | InvalidAddress      -- tundialer.c:75
  | ConnectFailed       -- tundialer.c:81
  | CreateResultFailed  -- tundialer.c:89
  deriving DecidableEq, Repr

/-- The payload of a `napi_throw_error(env, code, msg)` call: the optional
`code` string (the literal second argument in the C source) and the
message string. -/
structure NapiError where
  code : Option (List Char)
  msg : List Char
  deriving DecidableEq, Repr

/-- The value `Connect` hands back to the host: the descriptor on
success, or the thrown error. -/
inductive ConnectResult
  | ok (fd : Nat)
  | err (kind : ErrKind) (e : NapiError)
  deriving DecidableEq, Repr

/-- Observable OS-level events of one `Connect` call, in program order. -/
inductive Event
  | socketCreated (fd : Nat)                                   -- socket() succeeded
  | socketFailed                                               -- socket() returned < 0
  | bindToDevice (iface : List Char) (ok : Bool)               -- setsockopt SO_BINDTODEVICE
  | setNoDelay (ok : Bool)                                     -- setsockopt TCP_NODELAY
  | parseAddr (s : List Char) (res : Option (List Nat))        -- inet_pton
  | connectAttempt (fd : Nat) (addr : List Nat) (port : Nat) (ok : Bool)  -- connect()
  | closed (fd : Nat)                                          -- close()
  deriving DecidableEq, Repr

/-- Responses of the operating system to the OS calls `Connect` can make:
a fixed environment makes the C function a pure function of its
arguments.  `errno`-style codes are carried so that we can ask whether
the surfaced error depends on them. -/
structure OSEnv where
  socketFd : Option Nat                 -- socket(): some fd, or failure
  socketErrno : Nat
  bindToDeviceOk : List Char → Bool     -- SO_BINDTODEVICE outcome per interface name
  bindErrno : Nat
  nodelayOk : Bool                      -- TCP_NODELAY outcome (return value ignored by the code)
  connectOk : List Nat → Nat → Bool     -- connect() outcome per (octets, host-order port)
  connectErrno : Nat
  createInt32Ok : Bool                  -- napi_create_int32 outcome

/-- The N-API call data as `Connect` observes it.  A `none` argument is
one for which the corresponding `napi_get_value_*` call does not return
`napi_ok` (e.g. wrong JS type); a `some` holds the full JS string/number:
`napi_get_value_string_utf8` itself never fails on an over-long string,
it copies at most `bufsize - 1` bytes and reports `napi_ok`. -/
structure NapiArgs where
  cbInfoOk : Bool
  argc : Nat
  ifaceArg : Option (List Char)
  ipArg : Option (List Char)
  portArg : Option Int                  -- the int32 produced by napi_get_value_int32

/-- The body of `Connect` from tundialer.c:54 on, after argument
marshalling: `iface` and `ip` are the (already truncated) buffer
contents, `port` the int32.  Returns the result together with the list
of OS events, in the order the C code performs them.
`(port % 65536).toNat` is the value `htons(port)` stores in
`a.sin_port` (the C int32→uint16 conversion), read back in host order. -/
def connectCore (iface ip : List Char) (port : Int) (os : OSEnv) :
    ConnectResult × List Event :=
  match os.socketFd with
  | none =>
      (.err .SocketCreateFailed ⟨some "errno".toList, "socket() failed".toList⟩,
       [.socketFailed])
  | some s =>
      if os.bindToDeviceOk iface = false then
        (.err .InterfaceBindFailed
           ⟨some "errno".toList, "setsockopt(SO_BINDTODEVICE) failed".toList⟩,
         [.socketCreated s, .bindToDevice iface false, .closed s])
      else
        let parsed := inet_pton4 ip
        let p : Nat := (port % 65536).toNat
        match parsed with
        | none =>
            (.err .InvalidAddress
               ⟨none, "inet_pton() failed: invalid IP address".toList⟩,
             [.socketCreated s, .bindToDevice iface true, .setNoDelay os.nodelayOk,
              .parseAddr ip none, .closed s])
        | some addr =>
            if os.connectOk addr p = false then
              (.err .ConnectFailed ⟨some "errno".toList, "connect() failed".toList⟩,
               [.socketCreated s, .bindToDevice iface true, .setNoDelay os.nodelayOk,
                .parseAddr ip (some addr), .connectAttempt s addr p false, .closed s])
            else
              if os.createInt32Ok = false then
                (.err .CreateResultFailed
                   ⟨none, "Failed to create return value".toList⟩,
                 [.socketCreated s, .bindToDevice iface true, .setNoDelay os.nodelayOk,
                  .parseAddr ip (some addr), .connectAttempt s addr p true, .closed s])
              else
                (.ok s,
                 [.socketCreated s, .bindToDevice iface true, .setNoDelay os.nodelayOk,
                  .parseAddr ip (some addr), .connectAttempt s addr p true])

/-- The `Connect` N-API callback, tundialer.c:12-94.  Marshalling first
(tundialer.c:17-52) — note the string getters truncate to the buffer
size minus one and succeed — then the OS sequence `connectCore`. -/
def Connect (args : NapiArgs) (os : OSEnv) : ConnectResult × List Event :=
  if args.cbInfoOk = false then
    (.err .CbInfoFailed ⟨none, "Failed to parse arguments".toList⟩, [])
  else if args.argc < 3 then
    (.err .UsageError ⟨none, "Usage: connect(iface, ip, port)".toList⟩, [])
  else
    match args.ifaceArg with
    | none => (.err .InvalidArgument ⟨none, "Invalid iface argument".toList⟩, [])
    | some iface0 =>
        match args.ipArg with
        | none => (.err .InvalidIpArgument ⟨none, "Invalid ip argument".toList⟩, [])
        | some ip0 =>
            match args.portArg with
            | none =>
                (.err .InvalidPortArgument ⟨none, "Invalid port argument".toList⟩, [])
            | some port =>
                connectCore (iface0.take (IFNAMSIZ - 1))
                  (ip0.take (INET_ADDRSTRLEN - 1)) port os

/-- Descriptors created by `socket()` during the call, in order. -/
def createdFds (t : List Event) : List Nat :=
  t.filterMap fun e => match e with | .socketCreated fd => some fd | _ => none

/-- Descriptors passed to `close()` during the call, in order. -/
def closedFds (t : List Event) : List Nat :=
  t.filterMap fun e => match e with | .closed fd => some fd | _ => none

/-- Is the result a thrown error? -/
def ConnectResult.isErr : ConnectResult → Bool
  | .ok _ => false
  | .err _ _ => true

/-- The error kind of a result, if it is an error. -/
def ConnectResult.errKind : ConnectResult → Option ErrKind
  | .ok _ => none
  | .err k _ => some k

/-- Label of the five algorithm steps of the spec (§4.1): 0 = socket
creation, 1 = interface bind, 2 = no-delay tuning, 3 = address parsing,
4 = TCP connect.  `close()` is resource release, not a step. -/
def stepLabel : Event → Option Nat
  | .socketCreated _ => some 0
  | .socketFailed => some 0
  | .bindToDevice _ _ => some 1
  | .setNoDelay _ => some 2
  | .parseAddr _ _ => some 3
  | .connectAttempt _ _ _ _ => some 4
  | .closed _ => none

/-- The step labels of a trace, in execution order. -/
def steps (t : List Event) : List Nat := t.filterMap stepLabel

/-- The ordered step sequence of the spec: create, bind, tune, parse, connect. -/
def canonicalSteps : List Nat := [0, 1, 2, 3, 4]

/-- Two environments give identical OS responses: each OS call succeeds
or fails the same way in both.  Incidental values (which descriptor
number the OS hands out, which errno it sets) may differ. -/
def OSEnv.sameResponses (os1 os2 : OSEnv) : Prop :=
  os1.socketFd.isSome = os2.socketFd.isSome ∧
  os1.bindToDeviceOk = os2.bindToDeviceOk ∧
  os1.nodelayOk = os2.nodelayOk ∧
  os1.connectOk = os2.connectOk ∧
  os1.createInt32Ok = os2.createInt32Ok

/-! Concrete arguments and environments used by witnesses and
counterexamples. -/

/-- Well-formed arguments: connect("eth0", "127.0.0.1", 80). -/
def goodArgs : NapiArgs :=
  { cbInfoOk := true, argc := 3, ifaceArg := some "eth0".toList,
    ipArg := some "127.0.0.1".toList, portArg := some 80 }

/-- An OS in which every call succeeds; socket() hands out descriptor 3. -/
def okEnv : OSEnv :=
  { socketFd := some 3, socketErrno := 0, bindToDeviceOk := fun _ => true,
    bindErrno := 0, nodelayOk := true, connectOk := fun _ _ => true,
    connectErrno := 0, createInt32Ok := true }

/-- An OS in which SO_BINDTODEVICE fails for every name (no such device). -/
def bindFailEnv : OSEnv := { okEnv with bindToDeviceOk := fun _ => false }

/-- An OS in which the TCP connect is refused with errno 111 (ECONNREFUSED). -/
def refusedEnv : OSEnv :=
  { okEnv with connectOk := fun _ _ => false, connectErrno := 111 }

/-- Same refusal, but the OS sets errno 113 (EHOSTUNREACH) instead. -/
def refusedEnv113 : OSEnv :=
  { okEnv with connectOk := fun _ _ => false, connectErrno := 113 }

/-! Branch equations for `connectCore`, one per exit path of
tundialer.c:54-93, and the exhaustive case split over the OS responses. -/

lemma core_sockfail (i ip : List Char) (p : Int) (os : OSEnv)
    (hs : os.socketFd = none) :
    connectCore i ip p os =
      (.err .SocketCreateFailed ⟨some "errno".toList, "socket() failed".toList⟩,
       [.socketFailed]) := by
  simp [connectCore, hs]

lemma core_bindfail (i ip : List Char) (p : Int) (os : OSEnv) (s : Nat)
    (hs : os.socketFd = some s) (hb : os.bindToDeviceOk i = false) :
    connectCore i ip p os =
      (.err .InterfaceBindFailed
         ⟨some "errno".toList, "setsockopt(SO_BINDTODEVICE) failed".toList⟩,
       [.socketCreated s, .bindToDevice i false, .closed s]) := by
  simp [connectCore, hs, hb]

lemma core_ptonfail (i ip : List Char) (p : Int) (os : OSEnv) (s : Nat)
    (hs : os.socketFd = some s) (hb : os.bindToDeviceOk i = true)
    (hp : inet_pton4 ip = none) :
    connectCore i ip p os =
      (.err .InvalidAddress ⟨none, "inet_pton() failed: invalid IP address".toList⟩,
       [.socketCreated s, .bindToDevice i true, .setNoDelay os.nodelayOk,
        .parseAddr ip none, .closed s]) := by
  simp [connectCore, hs, hb, hp]

lemma core_connfail (i ip : List Char) (p : Int) (os : OSEnv) (s : Nat)
    (addr : List Nat) (hs : os.socketFd = some s)
    (hb : os.bindToDeviceOk i = true) (hp : inet_pton4 ip = some addr)
    (hc : os.connectOk addr ((p % 65536).toNat) = false) :
    connectCore i ip p os =
      (.err .ConnectFailed ⟨some "errno".toList, "connect() failed".toList⟩,
       [.socketCreated s, .bindToDevice i true, .setNoDelay os.nodelayOk,
        .parseAddr ip (some addr),
        .connectAttempt s addr ((p % 65536).toNat) false, .closed s]) := by
  simp [connectCore, hs, hb, hp, hc]

lemma core_createfail (i ip : List Char) (p : Int) (os : OSEnv) (s : Nat)
    (addr : List Nat) (hs : os.socketFd = some s)
    (hb : os.bindToDeviceOk i = true) (hp : inet_pton4 ip = some addr)
    (hc : os.connectOk addr ((p % 65536).toNat) = true)
    (hr : os.createInt32Ok = false) :
    connectCore i ip p os =
      (.err .CreateResultFailed ⟨none, "Failed to create return value".toList⟩,
       [.socketCreated s, .bindToDevice i true, .setNoDelay os.nodelayOk,
        .parseAddr ip (some addr),
        .connectAttempt s addr ((p % 65536).toNat) true, .closed s]) := by
  simp [connectCore, hs, hb, hp, hc, hr]

lemma core_success (i ip : List Char) (p : Int) (os : OSEnv) (s : Nat)
    (addr : List Nat) (hs : os.socketFd = some s)
    (hb : os.bindToDeviceOk i = true) (hp : inet_pton4 ip = some addr)
    (hc : os.connectOk addr ((p % 65536).toNat) = true)
    (hr : os.createInt32Ok = true) :
    connectCore i ip p os =
      (.ok s,
       [.socketCreated s, .bindToDevice i true, .setNoDelay os.nodelayOk,
        .parseAddr ip (some addr),
        .connectAttempt s addr ((p % 65536).toNat) true]) := by
  simp [connectCore, hs, hb, hp, hc, hr]

/-- Exhaustive split over the OS responses that drive `connectCore`. -/
lemma core_branches (i ip : List Char) (p : Int) (os : OSEnv) :
    os.socketFd = none ∨
    (∃ s, os.socketFd = some s ∧ os.bindToDeviceOk i = false) ∨
    (∃ s, os.socketFd = some s ∧ os.bindToDeviceOk i = true ∧
      inet_pton4 ip = none) ∨
    (∃ s addr, os.socketFd = some s ∧ os.bindToDeviceOk i = true ∧
      inet_pton4 ip = some addr ∧
      os.connectOk addr ((p % 65536).toNat) = false) ∨
    (∃ s addr, os.socketFd = some s ∧ os.bindToDeviceOk i = true ∧
      inet_pton4 ip = some addr ∧
      os.connectOk addr ((p % 65536).toNat) = true ∧
      os.createInt32Ok = false) ∨
    (∃ s addr, os.socketFd = some s ∧ os.bindToDeviceOk i = true ∧
      inet_pton4 ip = some addr ∧
      os.connectOk addr ((p % 65536).toNat) = true ∧
      os.createInt32Ok = true) := by
  cases hs : os.socketFd with
  | none => exact Or.inl rfl
  | some s =>
    cases hb : os.bindToDeviceOk i with
    | false => exact Or.inr (Or.inl ⟨s, rfl, rfl⟩)
    | true =>
      cases hp : inet_pton4 ip with
      | none => exact Or.inr (Or.inr (Or.inl ⟨s, rfl, rfl, rfl⟩))
      | some addr =>
        cases hc : os.connectOk addr ((p % 65536).toNat) with
        | false => exact Or.inr (Or.inr (Or.inr (Or.inl ⟨s, addr, rfl, rfl, rfl, hc⟩)))
        | true =>
          cases hr : os.createInt32Ok with
          | false =>
            exact Or.inr (Or.inr (Or.inr (Or.inr (Or.inl
              ⟨s, addr, rfl, rfl, rfl, hc, rfl⟩))))
          | true =>
            exact Or.inr (Or.inr (Or.inr (Or.inr (Or.inr
              ⟨s, addr, rfl, rfl, rfl, hc, rfl⟩))))

/-- With all three arguments marshalled, `Connect` is `connectCore` on
the truncated buffers. -/
lemma Connect_eq_core (args : NapiArgs) (os : OSEnv) (iface0 ip0 : List Char)
    (p : Int) (hcb : args.cbInfoOk = true) (hargc : ¬ args.argc < 3)
    (hif : args.ifaceArg = some iface0) (hip : args.ipArg = some ip0)
    (hport : args.portArg = some p) :
    Connect args os =
      connectCore (iface0.take (IFNAMSIZ - 1)) (ip0.take (INET_ADDRSTRLEN - 1))
        p os := by
  simp [Connect, hcb, hargc, hif, hip, hport]

/-- Either marshalling fails — a fixed error, no OS activity — or all
three arguments are marshalled and the call is `connectCore`. -/
lemma Connect_cases (args : NapiArgs) :
    (∃ k e, k ∈ [ErrKind.CbInfoFailed, ErrKind.UsageError, ErrKind.InvalidArgument,
        ErrKind.InvalidIpArgument, ErrKind.InvalidPortArgument] ∧
      ∀ os, Connect args os = (.err k e, [])) ∨
    (∃ i ip p, args.ifaceArg = some i ∧ args.ipArg = some ip ∧
      args.portArg = some p ∧
      ∀ os, Connect args os =
        connectCore (i.take (IFNAMSIZ - 1)) (ip.take (INET_ADDRSTRLEN - 1)) p os) := by
  by_cases hcb0 : args.cbInfoOk = false
  · exact Or.inl ⟨.CbInfoFailed, ⟨none, "Failed to parse arguments".toList⟩,
      by simp, fun os => by simp [Connect, hcb0]⟩
  · have hcb : args.cbInfoOk = true := by
      cases h : args.cbInfoOk
      · exact absurd h hcb0
      · rfl
    by_cases hlt : args.argc < 3
    · exact Or.inl ⟨.UsageError, ⟨none, "Usage: connect(iface, ip, port)".toList⟩,
        by simp, fun os => by simp [Connect, hcb, hlt]⟩
    · cases hif : args.ifaceArg with
      | none =>
        exact Or.inl ⟨.InvalidArgument, ⟨none, "Invalid iface argument".toList⟩,
          by simp, fun os => by simp [Connect, hcb, hlt, hif]⟩
      | some i =>
        cases hip : args.ipArg with
        | none =>
          exact Or.inl ⟨.InvalidIpArgument, ⟨none, "Invalid ip argument".toList⟩,
            by simp, fun os => by simp [Connect, hcb, hlt, hif, hip]⟩
        | some ip =>
          cases hport : args.portArg with
          | none =>
            exact Or.inl ⟨.InvalidPortArgument, ⟨none, "Invalid port argument".toList⟩,
              by simp, fun os => by simp [Connect, hcb, hlt, hif, hip, hport]⟩
          | some p =>
            exact Or.inr ⟨i, ip, p, rfl, rfl, rfl,
              fun os => Connect_eq_core args os i ip p hcb hlt hif hip hport⟩

/-! The claim theorems. -/

/-- C1 — Resource unwinding: on every failing invocation of `Connect`
the descriptors closed during the call are exactly the descriptors
created during it (so the count of open descriptors is unchanged), and
on every successful invocation exactly one descriptor was created, it is
the returned one, and nothing was closed. -/
theorem connect_no_fd_leak (args : NapiArgs) (os : OSEnv) :
    ((Connect args os).1.isErr = true →
      closedFds (Connect args os).2 = createdFds (Connect args os).2) ∧
    (∀ fd, (Connect args os).1 = .ok fd →
      createdFds (Connect args os).2 = [fd] ∧
      closedFds (Connect args os).2 = []) := by
  rcases Connect_cases args with ⟨k, e, _, hall⟩ | ⟨i, ip, p, _, _, _, hall⟩
  · rw [hall os]
    exact ⟨fun _ => rfl, fun fd hfd => by simp at hfd⟩
  · rw [hall os]
    rcases core_branches (i.take (IFNAMSIZ - 1)) (ip.take (INET_ADDRSTRLEN - 1)) p os
      with hs | ⟨s, hs, hb⟩ | ⟨s, hs, hb, hpt⟩ | ⟨s, addr, hs, hb, hpt, hc⟩ |
        ⟨s, addr, hs, hb, hpt, hc, hr⟩ | ⟨s, addr, hs, hb, hpt, hc, hr⟩
    · rw [core_sockfail _ _ _ _ hs]
      exact ⟨fun _ => by simp [closedFds, createdFds],
        fun fd hfd => by simp at hfd⟩
    · rw [core_bindfail _ _ _ _ _ hs hb]
      exact ⟨fun _ => by simp [closedFds, createdFds],
        fun fd hfd => by simp at hfd⟩
    · rw [core_ptonfail _ _ _ _ _ hs hb hpt]
      exact ⟨fun _ => by simp [closedFds, createdFds],
        fun fd hfd => by simp at hfd⟩
    · rw [core_connfail _ _ _ _ _ _ hs hb hpt hc]
      exact ⟨fun _ => by simp [closedFds, createdFds],
        fun fd hfd => by simp at hfd⟩
    · rw [core_createfail _ _ _ _ _ _ hs hb hpt hc hr]
      exact ⟨fun _ => by simp [closedFds, createdFds],
        fun fd hfd => by simp at hfd⟩
    · rw [core_success _ _ _ _ _ _ hs hb hpt hc hr]
      refine ⟨fun h => by simp [ConnectResult.isErr] at h, fun fd hfd => ?_⟩
      have hfd' : s = fd := by
        simpa using hfd
      subst hfd'
      simp [closedFds, createdFds]

/-- C1 witness: a refused connection closes exactly what was created,
and a fully successful call creates exactly descriptor 3, unclosed. -/
theorem connect_no_fd_leak_witness :
    closedFds (Connect goodArgs refusedEnv).2 =
      createdFds (Connect goodArgs refusedEnv).2 ∧
    createdFds (Connect goodArgs okEnv).2 = [3] ∧
    closedFds (Connect goodArgs okEnv).2 = [] :=
  ⟨(connect_no_fd_leak goodArgs refusedEnv).1 (by decide),
   (connect_no_fd_leak goodArgs okEnv).2 3 (by decide)⟩

/-- C3 — Interface-bind failure: if socket creation succeeds and the OS
rejects SO_BINDTODEVICE for the (truncated) interface name, the call
fails with InterfaceBindFailed and the trace is exactly: socket created,
bind refused, socket closed. -/
theorem connect_bind_failed (args : NapiArgs) (os : OSEnv)
    (iface0 ip0 : List Char) (p : Int) (s : Nat)
    (hcb : args.cbInfoOk = true) (hargc : ¬ args.argc < 3)
    (hif : args.ifaceArg = some iface0) (hip : args.ipArg = some ip0)
    (hport : args.portArg = some p) (hs : os.socketFd = some s)
    (hb : os.bindToDeviceOk (iface0.take (IFNAMSIZ - 1)) = false) :
    (Connect args os).1.errKind = some .InterfaceBindFailed ∧
    (Connect args os).2 =
      [.socketCreated s, .bindToDevice (iface0.take (IFNAMSIZ - 1)) false,
       .closed s] := by
  rw [Connect_eq_core args os iface0 ip0 p hcb hargc hif hip hport,
    core_bindfail _ _ _ _ _ hs hb]
  exact ⟨rfl, rfl⟩

/-- C3 witness: connect("eth0", "127.0.0.1", 80) against an OS with no
such device fails with InterfaceBindFailed after closing descriptor 3. -/
theorem connect_bind_failed_witness :
    (Connect goodArgs bindFailEnv).1.errKind = some .InterfaceBindFailed ∧
    (Connect goodArgs bindFailEnv).2 =
      [.socketCreated 3,
       .bindToDevice ("eth0".toList.take (IFNAMSIZ - 1)) false, .closed 3] :=
  connect_bind_failed goodArgs bindFailEnv "eth0".toList "127.0.0.1".toList
    80 3 rfl (by decide) rfl rfl rfl rfl rfl

/-- C7 — Linear ordered execution: the steps performed by any invocation
are a prefix of the ordered sequence [socket creation, interface bind,
no-delay tuning, address parsing, TCP connect] — so each step runs at
most once, the bind precedes the connect, and there is no loop, retry or
backward branch — and the first failing mandatory step ends the
sequence: the steps run are exactly those up to and including the step
whose error kind is reported. -/
theorem connect_linear_sequence (args : NapiArgs) (os : OSEnv) :
    steps (Connect args os).2 <+: canonicalSteps ∧
    ((Connect args os).1.errKind = some .SocketCreateFailed →
      steps (Connect args os).2 = [0]) ∧
    ((Connect args os).1.errKind = some .InterfaceBindFailed →
      steps (Connect args os).2 = [0, 1]) ∧
    ((Connect args os).1.errKind = some .InvalidAddress →
      steps (Connect args os).2 = [0, 1, 2, 3]) ∧
    ((Connect args os).1.errKind = some .ConnectFailed →
      steps (Connect args os).2 = [0, 1, 2, 3, 4]) := by
  rcases Connect_cases args with ⟨k, e, hk, hall⟩ | ⟨i, ip, p, _, _, _, hall⟩
  · rw [hall os]
    refine ⟨⟨[0, 1, 2, 3, 4], rfl⟩, ?_, ?_, ?_, ?_⟩ <;>
      · intro h
        simp [ConnectResult.errKind] at h
        subst h
        simp at hk
  · rw [hall os]
    rcases core_branches (i.take (IFNAMSIZ - 1)) (ip.take (INET_ADDRSTRLEN - 1)) p os
      with hs | ⟨s, hs, hb⟩ | ⟨s, hs, hb, hpt⟩ | ⟨s, addr, hs, hb, hpt, hc⟩ |
        ⟨s, addr, hs, hb, hpt, hc, hr⟩ | ⟨s, addr, hs, hb, hpt, hc, hr⟩
    · rw [core_sockfail _ _ _ _ hs]
      refine ⟨⟨[1, 2, 3, 4], rfl⟩, fun _ => rfl, ?_, ?_, ?_⟩ <;>
        · intro h; simp [ConnectResult.errKind] at h
    · rw [core_bindfail _ _ _ _ _ hs hb]
      refine ⟨⟨[2, 3, 4], rfl⟩, ?_, fun _ => rfl, ?_, ?_⟩ <;>
        · intro h; simp [ConnectResult.errKind] at h
    · rw [core_ptonfail _ _ _ _ _ hs hb hpt]
      refine ⟨⟨[4], rfl⟩, ?_, ?_, fun _ => rfl, ?_⟩ <;>
        · intro h; simp [ConnectResult.errKind] at h
    · rw [core_connfail _ _ _ _ _ _ hs hb hpt hc]
      refine ⟨⟨[], rfl⟩, ?_, ?_, ?_, fun _ => rfl⟩ <;>
        · intro h; simp [ConnectResult.errKind] at h
    · rw [core_createfail _ _ _ _ _ _ hs hb hpt hc hr]
      refine ⟨⟨[], rfl⟩, ?_, ?_, ?_, ?_⟩ <;>
        · intro h; simp [ConnectResult.errKind] at h
    · rw [core_success _ _ _ _ _ _ hs hb hpt hc hr]
      refine ⟨⟨[], rfl⟩, ?_, ?_, ?_, ?_⟩ <;>
        · intro h; simp [ConnectResult.errKind] at h

/-- C7 witness: a bind failure runs exactly steps [0, 1] — socket
creation then the failing bind, nothing further. -/
theorem connect_linear_sequence_witness :
    steps (Connect goodArgs bindFailEnv).2 = [0, 1] :=
  (connect_linear_sequence goodArgs bindFailEnv).2.2.1 (by decide)

/-- C6 — Best-effort no-delay tuning: the outcome of the TCP_NODELAY
setsockopt never changes the call's result (the code discards its return
value), and whenever the tuning step ran, the address-parsing step (3)
also ran, and whenever parsing produced an address the connect step (4)
ran as well. -/
theorem connect_nodelay_best_effort (args : NapiArgs) (os : OSEnv) (b : Bool) :
    (Connect args { os with nodelayOk := b }).1 = (Connect args os).1 ∧
    ∀ ok, Event.setNoDelay ok ∈ (Connect args os).2 →
      (3 : Nat) ∈ steps (Connect args os).2 ∧
      ∀ a addr, Event.parseAddr a (some addr) ∈ (Connect args os).2 →
        (4 : Nat) ∈ steps (Connect args os).2 := by
  rcases Connect_cases args with ⟨k, e, _, hall⟩ | ⟨i, ip, p, _, _, _, hall⟩
  · rw [hall os, hall { os with nodelayOk := b }]
    exact ⟨rfl, fun ok hok => by simp at hok⟩
  · rw [hall os, hall { os with nodelayOk := b }]
    rcases core_branches (i.take (IFNAMSIZ - 1)) (ip.take (INET_ADDRSTRLEN - 1)) p os
      with hs | ⟨s, hs, hb⟩ | ⟨s, hs, hb, hpt⟩ | ⟨s, addr, hs, hb, hpt, hc⟩ |
        ⟨s, addr, hs, hb, hpt, hc, hr⟩ | ⟨s, addr, hs, hb, hpt, hc, hr⟩
    · rw [core_sockfail _ _ _ _ hs, core_sockfail _ _ _ { os with nodelayOk := b } hs]
      exact ⟨rfl, fun ok hok => by simp at hok⟩
    · rw [core_bindfail _ _ _ _ _ hs hb, core_bindfail _ _ _ { os with nodelayOk := b } _ hs hb]
      exact ⟨rfl, fun ok hok => by simp at hok⟩
    · rw [core_ptonfail _ _ _ _ _ hs hb hpt,
        core_ptonfail _ _ _ { os with nodelayOk := b } _ hs hb hpt]
      exact ⟨rfl, fun ok _ => ⟨by simp [steps, stepLabel],
        fun a addr h => by simp at h⟩⟩
    · rw [core_connfail _ _ _ _ _ _ hs hb hpt hc,
        core_connfail _ _ _ { os with nodelayOk := b } _ _ hs hb hpt hc]
      exact ⟨rfl, fun ok _ => ⟨by simp [steps, stepLabel],
        fun a addr _ => by simp [steps, stepLabel]⟩⟩
    · rw [core_createfail _ _ _ _ _ _ hs hb hpt hc hr,
        core_createfail _ _ _ { os with nodelayOk := b } _ _ hs hb hpt hc hr]
      exact ⟨rfl, fun ok _ => ⟨by simp [steps, stepLabel],
        fun a addr _ => by simp [steps, stepLabel]⟩⟩
    · rw [core_success _ _ _ _ _ _ hs hb hpt hc hr,
        core_success _ _ _ { os with nodelayOk := b } _ _ hs hb hpt hc hr]
      exact ⟨rfl, fun ok _ => ⟨by simp [steps, stepLabel],
        fun a addr _ => by simp [steps, stepLabel]⟩⟩

/-- C6 witness: flipping the TCP_NODELAY outcome on a successful call
leaves the result unchanged, and the tuning step was followed by the
parsing step. -/
theorem connect_nodelay_best_effort_witness :
    (Connect goodArgs { okEnv with nodelayOk := false }).1 =
      (Connect goodArgs okEnv).1 ∧
    (3 : Nat) ∈ steps (Connect goodArgs okEnv).2 :=
  ⟨(connect_nodelay_best_effort goodArgs okEnv false).1,
   ((connect_nodelay_best_effort goodArgs okEnv false).2 true (by decide)).1⟩

/-- C8 — Idempotent error reporting: two invocations with the same
arguments, against operating systems that answer every OS call with the
same success/failure outcome (descriptor numbers and errno values may
differ), report the same error kind. -/
theorem connect_errkind_deterministic (args : NapiArgs) (os1 os2 : OSEnv)
    (h : os1.sameResponses os2) :
    (Connect args os1).1.errKind = (Connect args os2).1.errKind := by
  obtain ⟨h1, h2, h3, h4, h5⟩ := h
  rcases Connect_cases args with ⟨k, e, _, hall⟩ | ⟨i, ip, p, _, _, _, hall⟩
  · rw [hall os1, hall os2]
  · rw [hall os1, hall os2]
    rcases core_branches (i.take (IFNAMSIZ - 1)) (ip.take (INET_ADDRSTRLEN - 1)) p os1
      with hs | ⟨s, hs, hb⟩ | ⟨s, hs, hb, hpt⟩ | ⟨s, addr, hs, hb, hpt, hc⟩ |
        ⟨s, addr, hs, hb, hpt, hc, hr⟩ | ⟨s, addr, hs, hb, hpt, hc, hr⟩
    · rw [core_sockfail _ _ _ _ hs]
      cases hq : os2.socketFd with
      | none => rw [core_sockfail _ _ _ _ hq]
      | some t => rw [hs, hq] at h1; simp at h1
    · cases hq : os2.socketFd with
      | none => rw [hs, hq] at h1; simp at h1
      | some t =>
        rw [core_bindfail _ _ _ _ _ hs hb, core_bindfail _ _ _ _ _ hq (h2 ▸ hb)]
    · cases hq : os2.socketFd with
      | none => rw [hs, hq] at h1; simp at h1
      | some t =>
        rw [core_ptonfail _ _ _ _ _ hs hb hpt,
          core_ptonfail _ _ _ _ _ hq (h2 ▸ hb) hpt]
    · cases hq : os2.socketFd with
      | none => rw [hs, hq] at h1; simp at h1
      | some t =>
        rw [core_connfail _ _ _ _ _ _ hs hb hpt hc,
          core_connfail _ _ _ _ _ _ hq (h2 ▸ hb) hpt (h4 ▸ hc)]
    · cases hq : os2.socketFd with
      | none => rw [hs, hq] at h1; simp at h1
      | some t =>
        rw [core_createfail _ _ _ _ _ _ hs hb hpt hc hr,
          core_createfail _ _ _ _ _ _ hq (h2 ▸ hb) hpt (h4 ▸ hc) (h5 ▸ hr)]
    · cases hq : os2.socketFd with
      | none => rw [hs, hq] at h1; simp at h1
      | some t =>
        rw [core_success _ _ _ _ _ _ hs hb hpt hc hr,
          core_success _ _ _ _ _ _ hq (h2 ▸ hb) hpt (h4 ▸ hc) (h5 ▸ hr)]
        rfl

/-- Arguments with an address that is not an IPv4 literal. -/
def badIpArgs : NapiArgs := { goodArgs with ipArg := some "not-an-ip".toList }

/-- `okEnv` with a different descriptor number and different errno values. -/
def okEnvAlt : OSEnv :=
  { okEnv with socketFd := some 7, socketErrno := 9, connectErrno := 42 }

/-- C8 witness: connect("eth0", "not-an-ip", 80) reports the same kind —
InvalidAddress — under two OS environments that differ in descriptor
number and errno values. -/
theorem connect_errkind_deterministic_witness :
    (Connect badIpArgs okEnv).1.errKind = (Connect badIpArgs okEnvAlt).1.errKind ∧
    (Connect badIpArgs okEnv).1.errKind = some .InvalidAddress :=
  ⟨connect_errkind_deterministic badIpArgs okEnv okEnvAlt
    ⟨rfl, rfl, rfl, rfl, rfl⟩, by decide⟩

/-- Arguments whose interface name has 20 characters, more than
IFNAMSIZ - 1 = 15. -/
def longIfaceArgs : NapiArgs :=
  { goodArgs with ifaceArg := some "abcdefghijklmnopqrst".toList }

/-- C2 counterexample: with a 20-character interface name the call does
NOT fail with InvalidArgument and does NOT create zero sockets —
napi_get_value_string_utf8 truncates and succeeds, a socket (descriptor
3) is created, and the failure reported is InterfaceBindFailed. -/
theorem connect_long_iface_counterexample :
    IFNAMSIZ - 1 < "abcdefghijklmnopqrst".toList.length ∧
    (Connect longIfaceArgs bindFailEnv).1.errKind = some .InterfaceBindFailed ∧
    ¬ (Connect longIfaceArgs bindFailEnv).1.errKind = some .InvalidArgument ∧
    createdFds (Connect longIfaceArgs bindFailEnv).2 = [3] := by
  decide

/-- C2 amended: an interface-name argument longer than IFNAMSIZ - 1 = 15
bytes is not rejected: it is truncated to its first 15 bytes by
napi_get_value_string_utf8, which reports success, and the call proceeds
to create a socket and attempt SO_BINDTODEVICE with the truncated name;
the InvalidArgument error is never reported for a string argument. -/
theorem connect_long_iface_truncated (args : NapiArgs) (os : OSEnv)
    (iface0 ip0 : List Char) (p : Int) (s : Nat)
    (hcb : args.cbInfoOk = true) (hargc : ¬ args.argc < 3)
    (hif : args.ifaceArg = some iface0)
    (_hlen : IFNAMSIZ - 1 < iface0.length)
    (hip : args.ipArg = some ip0) (hport : args.portArg = some p)
    (hs : os.socketFd = some s) :
    (Connect args os).1.errKind ≠ some .InvalidArgument ∧
    Event.socketCreated s ∈ (Connect args os).2 ∧
    Event.bindToDevice (iface0.take (IFNAMSIZ - 1))
      (os.bindToDeviceOk (iface0.take (IFNAMSIZ - 1))) ∈ (Connect args os).2 := by
  rw [Connect_eq_core args os iface0 ip0 p hcb hargc hif hip hport]
  cases hb : os.bindToDeviceOk (iface0.take (IFNAMSIZ - 1)) with
  | false =>
    rw [core_bindfail _ _ _ _ _ hs hb]
    exact ⟨by simp [ConnectResult.errKind], by simp, by simp⟩
  | true =>
    cases hpt : inet_pton4 (ip0.take (INET_ADDRSTRLEN - 1)) with
    | none =>
      rw [core_ptonfail _ _ _ _ _ hs hb hpt]
      exact ⟨by simp [ConnectResult.errKind], by simp, by simp⟩
    | some addr =>
      cases hc : os.connectOk addr ((p % 65536).toNat) with
      | false =>
        rw [core_connfail _ _ _ _ _ _ hs hb hpt hc]
        exact ⟨by simp [ConnectResult.errKind], by simp, by simp⟩
      | true =>
        cases hr : os.createInt32Ok with
        | false =>
          rw [core_createfail _ _ _ _ _ _ hs hb hpt hc hr]
          exact ⟨by simp [ConnectResult.errKind], by simp, by simp⟩
        | true =>
          rw [core_success _ _ _ _ _ _ hs hb hpt hc hr]
          exact ⟨by simp [ConnectResult.errKind], by simp, by simp⟩

/-- C2 amended witness: the 20-character name is truncated to 15 bytes,
a socket is created, bind is attempted, and InvalidArgument is absent. -/
theorem connect_long_iface_truncated_witness :
    (Connect longIfaceArgs bindFailEnv).1.errKind ≠ some .InvalidArgument ∧
    Event.socketCreated 3 ∈ (Connect longIfaceArgs bindFailEnv).2 ∧
    Event.bindToDevice ("abcdefghijklmnopqrst".toList.take (IFNAMSIZ - 1))
      (bindFailEnv.bindToDeviceOk
        ("abcdefghijklmnopqrst".toList.take (IFNAMSIZ - 1)))
      ∈ (Connect longIfaceArgs bindFailEnv).2 :=
  connect_long_iface_truncated longIfaceArgs bindFailEnv
    "abcdefghijklmnopqrst".toList "127.0.0.1".toList 80 3 rfl (by decide) rfl
    (by decide) rfl rfl rfl

/-- Arguments whose 16-character address only parses after truncation:
its 15-byte prefix "123.123.123.123" is a valid IPv4 literal. -/
def longIpArgs : NapiArgs :=
  { goodArgs with ipArg := some "123.123.123.1234".toList }

/-- C4 counterexample: "123.123.123.1234" is not a valid IPv4
dotted-decimal literal, yet the call does not fail with InvalidAddress —
it returns descriptor 3 — because inet_pton is shown only the first 15
bytes of the buffer, "123.123.123.123". -/
theorem connect_invalid_address_counterexample :
    inet_pton4 "123.123.123.1234".toList = none ∧
    (Connect longIpArgs okEnv).1 = .ok 3 ∧
    ¬ (Connect longIpArgs okEnv).1.errKind = some .InvalidAddress := by
  decide

/-- C4 amended: whenever the first INET_ADDRSTRLEN - 1 = 15 bytes of the
address argument do not parse as an IPv4 dotted-decimal literal — which
for any address of at most 15 characters, such as "not-an-ip" or
"999.999.999.999", is the whole string — the call fails with
InvalidAddress after a socket was created and bound to the interface,
and that socket is closed before the call returns. -/
theorem connect_invalid_address (args : NapiArgs) (os : OSEnv)
    (iface0 ip0 : List Char) (p : Int) (s : Nat)
    (hcb : args.cbInfoOk = true) (hargc : ¬ args.argc < 3)
    (hif : args.ifaceArg = some iface0) (hip : args.ipArg = some ip0)
    (hport : args.portArg = some p) (hs : os.socketFd = some s)
    (hb : os.bindToDeviceOk (iface0.take (IFNAMSIZ - 1)) = true)
    (hpt : inet_pton4 (ip0.take (INET_ADDRSTRLEN - 1)) = none) :
    (Connect args os).1 =
      .err .InvalidAddress ⟨none, "inet_pton() failed: invalid IP address".toList⟩ ∧
    (Connect args os).2 =
      [.socketCreated s, .bindToDevice (iface0.take (IFNAMSIZ - 1)) true,
       .setNoDelay os.nodelayOk, .parseAddr (ip0.take (INET_ADDRSTRLEN - 1)) none,
       .closed s] := by
  rw [Connect_eq_core args os iface0 ip0 p hcb hargc hif hip hport,
    core_ptonfail _ _ _ _ _ hs hb hpt]
  exact ⟨rfl, rfl⟩

/-- C4 amended witness: connect("eth0", "not-an-ip", 80) fails with
InvalidAddress; the trace shows create, bind, tune, failed parse, close. -/
theorem connect_invalid_address_witness :
    (Connect badIpArgs okEnv).1 =
      .err .InvalidAddress ⟨none, "inet_pton() failed: invalid IP address".toList⟩ ∧
    (Connect badIpArgs okEnv).2 =
      [.socketCreated 3, .bindToDevice ("eth0".toList.take (IFNAMSIZ - 1)) true,
       .setNoDelay true, .parseAddr ("not-an-ip".toList.take (INET_ADDRSTRLEN - 1)) none,
       .closed 3] :=
  connect_invalid_address badIpArgs okEnv "eth0".toList "not-an-ip".toList 80 3
    rfl (by decide) rfl rfl rfl rfl rfl (by decide)

/-- The errno the OS reports is never read by the code: the whole call
result — value and trace — is unchanged under any connect errno. -/
lemma connect_errno_irrelevant (args : NapiArgs) (os : OSEnv) (e : Nat) :
    Connect args { os with connectErrno := e } = Connect args os := by
  obtain ⟨sfd, serr, bok, berr, nd, cok, cerr, crt⟩ := os
  rfl

/-- C5 counterexample: two OS environments that refuse the TCP connect
with different errno values (111 = ECONNREFUSED vs 113 = EHOSTUNREACH)
produce byte-for-byte identical surfaced errors — the error carries the
literal code string "errno" and the fixed message "connect() failed" —
so the underlying OS error code is not preserved in the error. -/
theorem connect_errno_not_preserved :
    refusedEnv.connectErrno = 111 ∧ refusedEnv113.connectErrno = 113 ∧
    (Connect goodArgs refusedEnv).1 =
      .err .ConnectFailed ⟨some "errno".toList, "connect() failed".toList⟩ ∧
    Connect goodArgs refusedEnv = Connect goodArgs refusedEnv113 := by
  exact ⟨rfl, rfl, by decide, rfl⟩

/-- C5 amended: when socket creation, interface binding and address
parsing succeed and the TCP connect fails, the call fails with
ConnectFailed and the socket is closed before the return; the surfaced
error is the constant pair (code string "errno", message "connect()
failed") — the numeric OS error code is never read, so the result is
identical for every errno value. -/
theorem connect_connect_failed (args : NapiArgs) (os : OSEnv)
    (iface0 ip0 : List Char) (p : Int) (s : Nat) (addr : List Nat)
    (hcb : args.cbInfoOk = true) (hargc : ¬ args.argc < 3)
    (hif : args.ifaceArg = some iface0) (hip : args.ipArg = some ip0)
    (hport : args.portArg = some p) (hs : os.socketFd = some s)
    (hb : os.bindToDeviceOk (iface0.take (IFNAMSIZ - 1)) = true)
    (hpt : inet_pton4 (ip0.take (INET_ADDRSTRLEN - 1)) = some addr)
    (hc : os.connectOk addr ((p % 65536).toNat) = false) :
    (Connect args os).1 =
      .err .ConnectFailed ⟨some "errno".toList, "connect() failed".toList⟩ ∧
    closedFds (Connect args os).2 = createdFds (Connect args os).2 ∧
    ∀ e, Connect args { os with connectErrno := e } = Connect args os := by
  have h1 := Connect_eq_core args os iface0 ip0 p hcb hargc hif hip hport
  refine ⟨?_, ?_, fun e => connect_errno_irrelevant args os e⟩
  · rw [h1, core_connfail _ _ _ _ _ _ hs hb hpt hc]
  · rw [h1, core_connfail _ _ _ _ _ _ hs hb hpt hc]
    simp [closedFds, createdFds]

/-- C5 amended witness: a refused connect("eth0", "127.0.0.1", 80) fails
with the constant ConnectFailed error, closes what it created, and gives
the same result under every errno. -/
theorem connect_connect_failed_witness :
    (Connect goodArgs refusedEnv).1 =
      .err .ConnectFailed ⟨some "errno".toList, "connect() failed".toList⟩ ∧
    closedFds (Connect goodArgs refusedEnv).2 =
      createdFds (Connect goodArgs refusedEnv).2 ∧
    ∀ e, Connect goodArgs { refusedEnv with connectErrno := e } =
      Connect goodArgs refusedEnv :=
  connect_connect_failed goodArgs refusedEnv "eth0".toList "127.0.0.1".toList
    80 3 [127, 0, 0, 1] rfl (by decide) rfl rfl rfl rfl rfl (by decide) rfl

/-- Two ports congruent modulo 65536 drive `connectCore` identically. -/
lemma core_port_congr (i ip : List Char) (p q : Int) (os : OSEnv)
    (hpq : p % 65536 = q % 65536) :
    connectCore i ip p os = connectCore i ip q os := by
  simp only [connectCore, hpq]

/-- C9 — Implicit port wrap-around: the int32 port is never
range-checked; only its value modulo 65536 — the C int32-to-uint16
conversion performed by htons — matters: two congruent ports give
identical results and traces, and when execution reaches the TCP
connect, the targeted port is the argument reduced modulo 65536. -/
theorem connect_port_modulo (args : NapiArgs) (os : OSEnv) (p q : Int)
    (hpq : p % 65536 = q % 65536) :
    Connect { args with portArg := some p } os =
      Connect { args with portArg := some q } os ∧
    ∀ iface0 ip0 s addr, args.cbInfoOk = true → ¬ args.argc < 3 →
      args.ifaceArg = some iface0 → args.ipArg = some ip0 →
      os.socketFd = some s →
      os.bindToDeviceOk (iface0.take (IFNAMSIZ - 1)) = true →
      inet_pton4 (ip0.take (INET_ADDRSTRLEN - 1)) = some addr →
      Event.connectAttempt s addr ((p % 65536).toNat)
          (os.connectOk addr ((p % 65536).toNat)) ∈
        (Connect { args with portArg := some p } os).2 := by
  constructor
  · obtain ⟨cb, n, ifa, ipa, pa⟩ := args
    cases cb
    · rfl
    · by_cases hlt : n < 3
      · simp [Connect, hlt]
      · cases ifa with
        | none => simp [Connect, hlt]
        | some i =>
          cases ipa with
          | none => simp [Connect, hlt]
          | some ip =>
            simp only [Connect, hlt]
            exact core_port_congr _ _ p q os hpq
  · intro iface0 ip0 s addr hcb hargc hif hip hs hb hpt
    rw [Connect_eq_core { args with portArg := some p } os iface0 ip0 p hcb hargc
      hif hip rfl]
    cases hc : os.connectOk addr ((p % 65536).toNat) with
    | false =>
      rw [core_connfail _ _ _ _ _ _ hs hb hpt hc]
      simp
    | true =>
      cases hr : os.createInt32Ok with
      | false =>
        rw [core_createfail _ _ _ _ _ _ hs hb hpt hc hr]
        simp
      | true =>
        rw [core_success _ _ _ _ _ _ hs hb hpt hc hr]
        simp

/-- C9 witness: port 65536 behaves exactly like port 0, and port -1
targets port 65535 at the connect call. -/
theorem connect_port_modulo_witness :
    Connect { goodArgs with portArg := some 65536 } okEnv =
      Connect { goodArgs with portArg := some 0 } okEnv ∧
    Event.connectAttempt 3 [127, 0, 0, 1] (((-1 : Int) % 65536).toNat)
        (okEnv.connectOk [127, 0, 0, 1] (((-1 : Int) % 65536).toNat)) ∈
      (Connect { goodArgs with portArg := some (-1) } okEnv).2 ∧
    ((-1 : Int) % 65536).toNat = 65535 ∧
    ((65536 : Int) % 65536).toNat = 0 :=
  ⟨(connect_port_modulo goodArgs okEnv 65536 0 (by decide)).1,
   (connect_port_modulo goodArgs okEnv (-1) (-1) rfl).2 "eth0".toList
     "127.0.0.1".toList 3 [127, 0, 0, 1] rfl (by decide) rfl rfl rfl rfl
     (by decide),
   by decide, by decide⟩

/-- C10 — Implicit address-string truncation: for an address argument
longer than INET_ADDRSTRLEN - 1 = 15 characters, inet_pton is handed
exactly the first 15 characters; when that prefix is itself a valid IPv4
literal the call does not fail with InvalidAddress and the TCP connect
targets the prefix address. -/
theorem connect_ip_truncated (args : NapiArgs) (os : OSEnv)
    (iface0 ip0 : List Char) (p : Int) (s : Nat)
    (hcb : args.cbInfoOk = true) (hargc : ¬ args.argc < 3)
    (hif : args.ifaceArg = some iface0) (hip : args.ipArg = some ip0)
    (_hlen : INET_ADDRSTRLEN - 1 < ip0.length)
    (hport : args.portArg = some p) (hs : os.socketFd = some s)
    (hb : os.bindToDeviceOk (iface0.take (IFNAMSIZ - 1)) = true) :
    Event.parseAddr (ip0.take (INET_ADDRSTRLEN - 1))
        (inet_pton4 (ip0.take (INET_ADDRSTRLEN - 1))) ∈ (Connect args os).2 ∧
    ∀ addr, inet_pton4 (ip0.take (INET_ADDRSTRLEN - 1)) = some addr →
      (Connect args os).1.errKind ≠ some .InvalidAddress ∧
      Event.connectAttempt s addr ((p % 65536).toNat)
          (os.connectOk addr ((p % 65536).toNat)) ∈ (Connect args os).2 := by
  rw [Connect_eq_core args os iface0 ip0 p hcb hargc hif hip hport]
  cases hpt : inet_pton4 (ip0.take (INET_ADDRSTRLEN - 1)) with
  | none =>
    rw [core_ptonfail _ _ _ _ _ hs hb hpt]
    exact ⟨by simp, fun addr haddr => by simp at haddr⟩
  | some addr0 =>
    refine ⟨?_, fun addr haddr => ?_⟩
    · cases hc : os.connectOk addr0 ((p % 65536).toNat) with
      | false => rw [core_connfail _ _ _ _ _ _ hs hb hpt hc]; simp
      | true =>
        cases hr : os.createInt32Ok with
        | false => rw [core_createfail _ _ _ _ _ _ hs hb hpt hc hr]; simp
        | true => rw [core_success _ _ _ _ _ _ hs hb hpt hc hr]; simp
    · obtain rfl : addr0 = addr := by simpa using haddr
      cases hc : os.connectOk addr0 ((p % 65536).toNat) with
      | false =>
        rw [core_connfail _ _ _ _ _ _ hs hb hpt hc]
        exact ⟨by intro h; simp [ConnectResult.errKind] at h, by simp⟩
      | true =>
        cases hr : os.createInt32Ok with
        | false =>
          rw [core_createfail _ _ _ _ _ _ hs hb hpt hc hr]
          exact ⟨by intro h; simp [ConnectResult.errKind] at h, by simp⟩
        | true =>
          rw [core_success _ _ _ _ _ _ hs hb hpt hc hr]
          exact ⟨by intro h; simp [ConnectResult.errKind] at h, by simp⟩

/-- C10 witness: connect("eth0", "123.123.123.1234", 80) parses the
15-byte prefix, does not report InvalidAddress, and connects to
123.123.123.123 port 80. -/
theorem connect_ip_truncated_witness :
    Event.parseAddr ("123.123.123.1234".toList.take (INET_ADDRSTRLEN - 1))
        (inet_pton4 ("123.123.123.1234".toList.take (INET_ADDRSTRLEN - 1))) ∈
      (Connect longIpArgs okEnv).2 ∧
    (Connect longIpArgs okEnv).1.errKind ≠ some .InvalidAddress ∧
    Event.connectAttempt 3 [123, 123, 123, 123] (((80 : Int) % 65536).toNat)
        (okEnv.connectOk [123, 123, 123, 123] (((80 : Int) % 65536).toNat)) ∈
      (Connect longIpArgs okEnv).2 :=
  ⟨(connect_ip_truncated longIpArgs okEnv "eth0".toList
      "123.123.123.1234".toList 80 3 rfl (by decide) rfl rfl (by decide) rfl
      rfl rfl).1,
   (connect_ip_truncated longIpArgs okEnv "eth0".toList
      "123.123.123.1234".toList 80 3 rfl (by decide) rfl rfl (by decide) rfl
      rfl rfl).2 [123, 123, 123, 123] (by decide)⟩

end Tundialer
